import Mathlib

/-!
Verification development for the Bilibili M4S batch converter
(`bilibili.py`).  The repairer, structure detector, track
disambiguator and merge orchestrator are embedded shallowly:
byte streams become `List Nat` (the program opens regular files,
so a short read means end of input), directory listings become
lists of named nodes, and the external tool / temp-file effects
of the orchestrator become an oracle environment plus an event
trace.
-/

namespace Bilibili

/-- Result of running the M4S repair routine `decode_bilibili_m4s`:
the bytes written to the output stream, the number of structural
warnings logged via the log callback, and the boolean success flag
returned to the caller. -/
structure RepairResult where
  out : List Nat
  warnings : Nat
  ok : Bool
  deriving Repr, DecidableEq

/-- Check of step 3 of the repair, reading the ASCII bytes "iso5" at
offsets 16..19: `data[16] == 0x69 and data[17] == 0x73 and
data[18] == 0x6f and data[19] == 0x35`. -/
def hasIso5 (data : List Nat) : Bool :=
  data.getD 16 0 == 0x69 && data.getD 17 0 == 0x73 &&
    data.getD 18 0 == 0x6f && data.getD 19 0 == 0x35

/-- Step 2 of the repair: `if len(data) > 3: data[3] = 0x20`. -/
def patch3 (data : List Nat) : List Nat :=
  if 3 < data.length then data.set 3 0x20 else data

/-- Warnings logged by step 2: one warning exactly when the chunk is
too short for the byte patch (`else` branch of `len(data) > 3`). -/
def warn2 (data : List Nat) : Nat :=
  if 3 < data.length then 0 else 1

/-- Step 3 of the repair: when at least 20 bytes remain, delete bytes
16..19 (`del data[16:20]`) unless they read "iso5". -/
def strip5 (data : List Nat) : List Nat :=
  if 20 ≤ data.length then
    if hasIso5 data then data else data.take 16 ++ data.drop 20
  else data

/-- Warnings logged by step 3: the `elif len(data) > 16` branch warns;
the branch that removes or keeps the brand bytes only logs info. -/
def warn3 (data : List Nat) : Nat :=
  if 20 ≤ data.length then 0 else if 16 < data.length then 1 else 0

/-- Steps 2 and 3 applied in order to the first chunk after the
9-byte drop (or to the fallback chunk in the short-header branch). -/
def transformFirst (data : List Nat) : List Nat :=
  strip5 (patch3 data)

/-- Warnings logged by steps 2 and 3 together. -/
def warnFirst (data : List Nat) : Nat :=
  warn2 data + warn3 (patch3 data)

/-- Shallow embedding of `decode_bilibili_m4s`.  The input file is a
byte list; `fin.read(k)` on a regular file returns `take k` of what
remains (a short result means end of file).  The first 1024-byte read
is transformed: drop 9 leading bytes when possible (otherwise write
the chunk unchanged, warn, and read the next 4096-byte block, which
is then fed to steps 2 and 3 — faithfully transcribed even though a
short first read of a regular file means nothing follows), patch the
byte at offset 3, strip bytes 16..19 when "iso5" is absent; every
later block is copied through unchanged.  All return paths of the
Python function yield `True`; `False` is produced only by the
`except` handler for I/O failures, which the embedding (fault-free
streams) does not model. -/
def decode_bilibili_m4s (input : List Nat) : RepairResult :=
  let buffer := input.take 1024
  let rest := input.drop 1024
  if buffer.isEmpty then ⟨[], 0, true⟩
  else if 9 ≤ buffer.length then
    ⟨transformFirst (buffer.drop 9) ++ rest, warnFirst (buffer.drop 9), true⟩
  else
    let buffer2 := rest.take 4096
    if buffer2.isEmpty then ⟨buffer, 1, true⟩
    else ⟨buffer ++ transformFirst buffer2 ++ rest.drop 4096, 1 + warnFirst buffer2, true⟩

/-- Characters replaced by an underscore in `sanitize_filename`, the
character class of the regular expression `[\\/*?:"<>|]`. -/
def isIllegalChar (c : Char) : Bool :=
  c = '\\' || c = '/' || c = '*' || c = '?' || c = ':' ||
    c = '"' || c = '<' || c = '>' || c = '|'

/-- Whitespace as matched by the `\s` class on the ASCII range
(space, tab, newline, carriage return, vertical tab, form feed). -/
def isSpaceChar (c : Char) : Bool :=
  c = ' ' || c = '\t' || c = '\n' || c = '\r' || c = '\x0b' || c = '\x0c'

/-- First substitution of `sanitize_filename`: every illegal character
becomes an underscore. -/
def replaceIllegal (l : List Char) : List Char :=
  l.map fun c => if isIllegalChar c then '_' else c

/-- Second substitution of `sanitize_filename`: each maximal run of
whitespace becomes a single space. -/
def collapseWS : List Char → List Char
  | [] => []
  | [c] => if isSpaceChar c then [' '] else [c]
  | c₁ :: c₂ :: rest =>
    if isSpaceChar c₁ then
      if isSpaceChar c₂ then collapseWS (c₂ :: rest)
      else ' ' :: collapseWS (c₂ :: rest)
    else c₁ :: collapseWS (c₂ :: rest)

/-- Trim of `.strip()`: remove leading and trailing whitespace. -/
def stripWS (l : List Char) : List Char :=
  ((l.dropWhile isSpaceChar).reverse.dropWhile isSpaceChar).reverse

/-- Character-level body of `sanitize_filename`: replace illegal
characters, collapse whitespace runs, strip, and keep at most 150
characters (`filename[:150]`). -/
def sanitizeChars (l : List Char) : List Char :=
  (stripWS (collapseWS (replaceIllegal l))).take 150

/-- Shallow embedding of `M4SConverterApp.sanitize_filename`. -/
def sanitize_filename (s : String) : String :=
  String.mk (sanitizeChars s.data)

/-- Metadata descriptor as read by `process_single_folder`: only the
key paths probed by the code are modeled.  An outer `none` means the
key is absent; for the nested probes the outer option is the presence
of the parent object (`videoData` / `page_data`) and the inner option
the presence of the nested key, whose value may be empty. -/
structure VideoInfo where
  title : Option String
  videoData_title : Option (Option String)
  page_data_part : Option (Option String)
  videoName : Option String
  deriving Repr, DecidableEq

/-- Truthiness of an optional JSON string: present and non-empty. -/
def truthy : Option String → Bool
  | some s => !(s == "")
  | none => false

/-- Title probe for the desktop (`pc`) layout, the `if/elif` chain of
`process_single_folder`: `title` (truthy), then `videoData.title`
(presence only), then `page_data.part` (presence only), then
`videoName` (truthy); otherwise the initial value `untitled_video`
survives. -/
def extract_title_pc (v : VideoInfo) : String :=
  if truthy v.title then v.title.getD ""
  else match v.videoData_title with
    | some (some t) => t
    | _ =>
      match v.page_data_part with
      | some (some t) => t
      | _ => if truthy v.videoName then v.videoName.getD "" else "untitled_video"

/-- Title probe for the mobile layout (`entry.json`): `title` (truthy),
then `page_data.part` (presence only), else the initial value. -/
def extract_title_mobile (v : VideoInfo) : String :=
  if truthy v.title then v.title.getD ""
  else match v.page_data_part with
    | some (some t) => t
    | _ => "untitled_video"

/-- Title selection of `process_single_folder` after a successful JSON
parse: sanitize the probed title; when that is empty, sanitize the
input folder's base name; when that is also empty, use the literal
`converted_video`. -/
def select_output_title (kind : String) (v : VideoInfo) (folderBase : String) : String :=
  let t := if kind = "pc" then extract_title_pc v else extract_title_mobile v
  let s := sanitize_filename t
  if s ≠ "" then s
  else
    let s₂ := sanitize_filename folderBase
    if s₂ ≠ "" then s₂ else "converted_video"

/-- On-disk tree node used by the embedding of
`detect_folder_structure`: a named file or a named directory with its
listing (`os.listdir` order is the list order). -/
inductive FSNode where
  | file (name : String)
  | dir (name : String) (children : List FSNode)

/-- Name of a node, as returned by `os.listdir`. -/
def FSNode.name : FSNode → String
  | .file n => n
  | .dir n _ => n

/-- Truth of `os.path.isdir` on a node. -/
def FSNode.isDir : FSNode → Bool
  | .file _ => false
  | .dir _ _ => true

/-- Listing of a node; a file has no children. -/
def FSNode.children : FSNode → List FSNode
  | .file _ => []
  | .dir _ cs => cs

/-- Path joining, `os.path.join` on POSIX. -/
def pjoin (a b : String) : String := a ++ "/" ++ b

/-- Case-insensitive `.m4s` extension test,
`item.lower().endswith(".m4s")`: the last four characters of the
lowercased name are `.m4s`.  `Char.toLower` matches `str.lower` on
the basic latin names involved. -/
def isM4sName (s : String) : Bool :=
  match (s.data.map Char.toLower).reverse with
  | c₁ :: c₂ :: c₃ :: c₄ :: _ => c₁ = 's' && c₂ = '4' && c₃ = 'm' && c₄ = '.'
  | _ => false

/-- Test of `item.startswith("c_")` on a directory-entry name. -/
def isCFolderName (s : String) : Bool :=
  match s.data with
  | c :: u :: _ => c = 'c' && u = '_'
  | _ => false

/-- Number of entries of a listing whose name ends in `.m4s`
(case-insensitively); `os.listdir` yields names, so directories are
counted too, exactly as in the code. -/
def countM4s (cs : List FSNode) : Nat :=
  (cs.filter fun c => isM4sName c.name).length

/-- Scan of the children of the `c_` folder: the first subdirectory
whose own listing holds at least two `.m4s` entries. -/
def findM4sDir (cs : List FSNode) : Option FSNode :=
  cs.find? fun c => c.isDir && decide (2 ≤ countM4s c.children)

/-- Shallow embedding of `detect_folder_structure`, applied to the
folder's path and its listing.  Mirrors the code: a child named
`videoInfo.json` (regular file or not — only the name is tested)
means the `pc` layout; otherwise the first `c_`-prefixed
subdirectory must hold an `entry.json` entry and a subdirectory with
two `.m4s` entries to give the `mobile` layout; every other outcome
is `("unknown", none, none)`. -/
def detect_folder_structure (folderPath : String) (children : List FSNode) :
    String × Option String × Option String :=
  if children.any fun c => c.name = "videoInfo.json" then
    ("pc", some folderPath, some (pjoin folderPath "videoInfo.json"))
  else
    match children.filter fun c => c.isDir && isCFolderName c.name with
    | [] => ("unknown", none, none)
    | c :: _ =>
      let cPath := pjoin folderPath c.name
      if c.children.any fun x => x.name = "entry.json" then
        match findM4sDir c.children with
        | some d => ("mobile", some (pjoin cPath d.name), some (pjoin cPath "entry.json"))
        | none => ("unknown", none, none)
      else ("unknown", none, none)

/-- Directory entry as seen by the fragment enumeration of
`process_mobile_m4s_files` / `process_pc_m4s_files`: a name and the
result of `os.path.getsize` (`none` models the `OSError` branch that
logs a warning and skips the entry). -/
structure FileEntry where
  name : String
  size : Option Nat
  deriving Repr, DecidableEq

/-- Fragment candidates: entries whose lowercased name ends in `.m4s`
and whose size could be read, in listing order. -/
def m4sCandidates (files : List FileEntry) : List (String × Nat) :=
  files.filterMap fun f =>
    if isM4sName f.name then f.size.map fun n => (f.name, n) else none

/-- Comparison used by the size sort: `a` may come before `b` when its
size is at least as large. -/
def sizeGe (a b : String × Nat) : Prop := b.2 ≤ a.2

instance : DecidableRel sizeGe := fun _ _ => Nat.decLe _ _

instance : IsTotal (String × Nat) sizeGe := ⟨fun a b => (Nat.le_total a.2 b.2).symm⟩

instance : IsTrans (String × Nat) sizeGe :=
  ⟨fun _ _ _ h₁ h₂ => Nat.le_trans h₂ h₁⟩

/-- Stable descending sort by size,
`m4s_files.sort(key=lambda x: x["size"], reverse=True)`.  A stable
sort with respect to a fixed total preorder is unique, so the stable
insertion sort coincides with the sort performed by the program. -/
def sortBySizeDesc (l : List (String × Nat)) : List (String × Nat) :=
  l.insertionSort sizeGe

/-- Track disambiguation shared by both processing routines: at least
two candidates are required; after the descending sort the first is
the video (primary) track and the second the audio (secondary)
track. -/
def disambiguate (files : List FileEntry) : Option ((String × Nat) × (String × Nat)) :=
  if (m4sCandidates files).length < 2 then none
  else
    match sortBySizeDesc (m4sCandidates files) with
    | p :: s :: _ => some (p, s)
    | _ => none

/-- Observable events of one folder-processing run: creation and
deletion of the two repair temp files (0 = video, 1 = audio) and the
entry into the repair-then-merge strategy
(`process_pc_m4s_files`). -/
inductive Ev where
  | tempCreated (i : Nat)
  | tempDeleted (i : Nat)
  | repairMerge
  deriving Repr, DecidableEq

/-- Oracle environment for one folder: the fragment listing and the
outcomes of the external effects, in program order — the direct
ffmpeg merge, the two `mkstemp` calls (a `False` models the raised
`OSError`), the two repair runs, and the ffmpeg merge of the repaired
temp files.  `_run_ffmpeg_command` and `decode_bilibili_m4s` catch
every exception and return a boolean, so only booleans are needed. -/
structure MergeEnv where
  files : List FileEntry
  directMergeOk : Bool
  mkstempVidOk : Bool
  mkstempAudOk : Bool
  decodeVidOk : Bool
  decodeAudOk : Bool
  mergeDecodedOk : Bool
  deriving Repr, DecidableEq

/-- Shallow embedding of `process_pc_m4s_files` (repair-then-merge):
returns the boolean outcome and the temp-file event trace.  The
`finally` block removes whichever temp files exist on every exit
path; a failed second `mkstemp` leaves only the first temp file to
delete, and the outer `except` turns the exception into `False`. -/
def process_pc_m4s_files (env : MergeEnv) : Bool × List Ev :=
  if (m4sCandidates env.files).length < 2 then (false, [])
  else if !env.mkstempVidOk then (false, [])
  else if !env.mkstempAudOk then (false, [.tempCreated 0, .tempDeleted 0])
  else
    let ok := env.decodeVidOk && env.decodeAudOk
    let result := if ok then env.mergeDecodedOk else false
    (result, [.tempCreated 0, .tempCreated 1, .tempDeleted 0, .tempDeleted 1])

/-- Shallow embedding of `process_mobile_m4s_files`: direct stream-copy
merge of the raw fragments first; on failure, one fallback call into
`process_pc_m4s_files`. -/
def process_mobile_m4s_files (env : MergeEnv) : Bool × List Ev :=
  if (m4sCandidates env.files).length < 2 then (false, [])
  else if env.directMergeOk then (true, [])
  else
    let r := process_pc_m4s_files env
    (r.1, .repairMerge :: r.2)

/-- Temp-file indices created during a trace, in order. -/
def createdTemps (evs : List Ev) : List Nat :=
  evs.filterMap fun e => match e with | .tempCreated i => some i | _ => none

/-- Temp-file indices deleted during a trace, in order. -/
def deletedTemps (evs : List Ev) : List Nat :=
  evs.filterMap fun e => match e with | .tempDeleted i => some i | _ => none

/-- Recognizer for the repair-then-merge event. -/
def isRepairEv : Ev → Bool
  | .repairMerge => true
  | _ => false

/-- Number of repair-then-merge attempts recorded in a trace. -/
def repairAttempts (evs : List Ev) : Nat :=
  (evs.filter isRepairEv).length

/-! Helper lemmas about the repair transform. -/

theorem length_patch3 (l : List Nat) : (patch3 l).length = l.length := by
  unfold patch3; split <;> simp

theorem hasIso5_patch3 (l : List Nat) : hasIso5 (patch3 l) = hasIso5 l := by
  unfold patch3
  split
  · unfold hasIso5
    simp only [List.getD_eq_getElem?_getD]
    rw [List.getElem?_set_ne (by decide), List.getElem?_set_ne (by decide),
      List.getElem?_set_ne (by decide), List.getElem?_set_ne (by decide)]
  · rfl

theorem length_strip5 (l : List Nat) :
    (strip5 l).length =
      if 20 ≤ l.length ∧ hasIso5 l = false then l.length - 4 else l.length := by
  unfold strip5
  by_cases h : 20 ≤ l.length
  · by_cases hi : hasIso5 l = true
    · simp [h, hi]
    · rw [if_pos h, if_neg hi, if_pos ⟨h, by simpa using hi⟩]
      simp only [List.length_append, List.length_take, List.length_drop]
      omega
  · rw [if_neg h, if_neg (by tauto)]

theorem length_transformFirst (l : List Nat) :
    (transformFirst l).length =
      if 20 ≤ l.length ∧ hasIso5 l = false then l.length - 4 else l.length := by
  unfold transformFirst
  rw [length_strip5, hasIso5_patch3, length_patch3]

theorem decode_nil : decode_bilibili_m4s [] = ⟨[], 0, true⟩ := rfl

theorem decode_short (input : List Nat) (h0 : input ≠ []) (h9 : input.length < 9) :
    decode_bilibili_m4s input = ⟨input, 1, true⟩ := by
  have ht : input.take 1024 = input := List.take_of_length_le (by omega)
  have hd : input.drop 1024 = [] := List.drop_eq_nil_of_le (by omega)
  unfold decode_bilibili_m4s
  simp only [ht, hd]
  rw [if_neg (by simp [List.isEmpty_iff, h0]), if_neg (by omega)]
  simp

theorem decode_long (input : List Nat) (h : 9 ≤ input.length) :
    decode_bilibili_m4s input =
      ⟨transformFirst ((input.take 1024).drop 9) ++ input.drop 1024,
        warnFirst ((input.take 1024).drop 9), true⟩ := by
  have h1 : (input.take 1024).length = min 1024 input.length := List.length_take _ _
  have hne : input.take 1024 ≠ [] := by
    intro he
    rw [he] at h1
    simp at h1
    omega
  unfold decode_bilibili_m4s
  rw [if_neg (by simp [List.isEmpty_iff, hne]), if_pos (by omega)]

/-- C10: on an empty input stream the repair function writes nothing,
logs no warning, and returns success — the empty first read breaks out
of the loop before any header-transformation step. -/
theorem repair_empty_input_noop :
    decode_bilibili_m4s [] = ⟨[], 0, true⟩ :=
  decode_nil

/-- C2 counterexample: for the empty input stream the first read chunk
is shorter than 9 bytes, yet no warning is logged (`warnings = 0`),
contradicting the claim that repair logs a warning for every first
chunk shorter than 9 bytes. -/
theorem repair_short_header_empty_counterexample :
    (List.take 1024 ([] : List Nat)).length < 9 ∧
      (decode_bilibili_m4s []).warnings = 0 := by
  decide

/-- C2 amended: for every input stream whose first read chunk is
nonempty and shorter than 9 bytes, repair writes that chunk unchanged,
logs exactly one warning, returns success, and no byte of the stream
is patched or removed (a short first read of a regular file means the
stream holds nothing further). -/
theorem repair_short_header_passthrough (input : List Nat)
    (h0 : input ≠ []) (h9 : input.length < 9) :
    decode_bilibili_m4s input = ⟨input, 1, true⟩ :=
  decode_short input h0 h9

/-- Witness for the amended C2 theorem at the 3-byte stream. -/
theorem repair_short_header_passthrough_witness :
    decode_bilibili_m4s [1, 2, 3] = ⟨[1, 2, 3], 1, true⟩ :=
  repair_short_header_passthrough [1, 2, 3] (by decide) (by decide)

/-- C1 counterexample: a 20-byte stream (all zeros) has a first read
chunk of 20 bytes without the "iso5" brand at offsets 16..19 of the
post-strip chunk, so the claim predicts an output of 20 − 13 = 7
bytes; the code skips the brand check (the post-strip chunk has only
11 bytes, below the 20-byte guard) and outputs 11 bytes. -/
theorem repair_20_byte_counterexample :
    (List.replicate 20 (0 : Nat)).length = 20 ∧
      hasIso5 (((List.replicate 20 (0 : Nat)).take 1024).drop 9) = false ∧
      (decode_bilibili_m4s (List.replicate 20 (0 : Nat))).out.length = 11 ∧
      (11 : Nat) ≠ 20 - 13 := by
  decide

/-- C1 amended: for every input whose first read chunk is at least 29
bytes (so at least 20 bytes remain after dropping the leading 9), the
repaired output length is input length − 9 when bytes 16..19 of the
post-strip chunk read "iso5" and input length − 13 otherwise; for a
first chunk of 20 to 28 bytes the brand check is skipped and the
output length is input length − 9. -/
theorem repair_output_length (input : List Nat) :
    (29 ≤ input.length →
      (hasIso5 ((input.take 1024).drop 9) = true →
        (decode_bilibili_m4s input).out.length = input.length - 9) ∧
      (hasIso5 ((input.take 1024).drop 9) = false →
        (decode_bilibili_m4s input).out.length = input.length - 13)) ∧
    (20 ≤ input.length → input.length ≤ 28 →
      (decode_bilibili_m4s input).out.length = input.length - 9) := by
  constructor
  · intro h29
    rw [decode_long input (by omega)]
    constructor
    · intro hiso
      simp only [List.length_append, length_transformFirst, List.length_drop, List.length_take]
      rw [if_neg (by simp [hiso])]
      omega
    · intro hiso
      simp only [List.length_append, length_transformFirst, List.length_drop, List.length_take]
      rw [if_pos ⟨by omega, hiso⟩]
      omega
  · intro h20 h28
    rw [decode_long input (by omega)]
    simp only [List.length_append, length_transformFirst, List.length_drop, List.length_take]
    rw [if_neg (fun hco => absurd hco.1 (by omega))]
    omega

/-- Witness for the amended C1 theorem: a 29-byte stream carrying
"iso5" at offsets 25..28 keeps the brand and loses exactly 9 bytes,
and a 29-byte stream of zeros loses exactly 13. -/
theorem repair_output_length_witness :
    (decode_bilibili_m4s (List.replicate 25 0 ++ [0x69, 0x73, 0x6f, 0x35])).out.length = 20 ∧
      (decode_bilibili_m4s (List.replicate 29 (0 : Nat))).out.length = 16 := by
  constructor
  · have h := ((repair_output_length (List.replicate 25 0 ++ [0x69, 0x73, 0x6f, 0x35])).1
      (by decide)).1 (by decide)
    simpa using h
  · have h := ((repair_output_length (List.replicate 29 (0 : Nat))).1
      (by decide)).2 (by decide)
    simpa using h

/-- C8: the repair function is total on every byte stream — short and
truncated headers included — and always reports success with an output
no longer than the input and at most 13 bytes shorter: in the
embedding with fault-free streams no structural condition ever
produces a failure, matching the code, where `False` can arise only
from the I/O `except` handler. -/
theorem repair_total_and_graceful (input : List Nat) :
    (decode_bilibili_m4s input).ok = true ∧
      (decode_bilibili_m4s input).out.length ≤ input.length ∧
      input.length - 13 ≤ (decode_bilibili_m4s input).out.length := by
  by_cases h0 : input = []
  · subst h0; decide
  · by_cases h9 : input.length < 9
    · rw [decode_short input h0 h9]
      exact ⟨rfl, Nat.le_refl _, Nat.sub_le _ _⟩
    · rw [decode_long input (by omega)]
      refine ⟨rfl, ?_, ?_⟩ <;>
        · simp only [List.length_append, length_transformFirst, List.length_drop,
            List.length_take]
          split <;> omega

set_option maxRecDepth 4000 in
/-- C7 counterexample: a title of 151 space characters is longer than
150 characters, yet its sanitized form has length 0, not the claimed
exactly 150 — whitespace collapsing and trimming run before the
truncation. -/
theorem sanitize_truncation_counterexample :
    (String.mk (List.replicate 151 ' ')).length = 151 ∧
      (sanitize_filename (String.mk (List.replicate 151 ' '))).length = 0 ∧
      (0 : Nat) ≠ 150 := by
  decide

/-- C7 amended: sanitization replaces each illegal character with an
underscore, collapses whitespace runs, trims, and truncates the result
to at most 150 characters; `My:Video<1>` sanitizes to `My_Video_1_`,
and whenever the replaced-collapsed-trimmed form still has at least
150 characters the output has exactly 150. -/
theorem sanitize_filename_spec (s : String) :
    (sanitize_filename s).length ≤ 150 ∧
      sanitize_filename "My:Video<1>" = "My_Video_1_" ∧
      (150 ≤ (stripWS (collapseWS (replaceIllegal s.data))).length →
        (sanitize_filename s).length = 150) := by
  refine ⟨?_, by decide, ?_⟩
  · show (sanitizeChars s.data).length ≤ 150
    unfold sanitizeChars
    rw [List.length_take]
    omega
  · intro h
    show (sanitizeChars s.data).length = 150
    unfold sanitizeChars
    rw [List.length_take]
    omega

set_option maxRecDepth 4000 in
/-- Witness for the amended C7 theorem: 151 letters sanitize to
exactly 150 characters. -/
theorem sanitize_filename_spec_witness :
    (sanitize_filename (String.mk (List.replicate 151 'a'))).length = 150 :=
  (sanitize_filename_spec (String.mk (List.replicate 151 'a'))).2.2 (by decide)

/-- C4 counterexample: with a metadata descriptor that parses but
matches none of the probed key paths, the title used is the built-in
default `untitled_video`, not the input folder's base name
(`myfolder` here), although that base name sanitizes to itself. -/
theorem title_fallback_counterexample :
    extract_title_pc ⟨none, none, none, none⟩ = "untitled_video" ∧
      sanitize_filename "myfolder" = "myfolder" ∧
      select_output_title "pc" ⟨none, none, none, none⟩ "myfolder" = "untitled_video" ∧
      ("untitled_video" : String) ≠ "myfolder" := by
  decide

/-- C4 amended: when the ordered key-path probe yields no title, the
pre-set literal `untitled_video` is used (and survives sanitization);
the folder base name is used only when the selected title sanitizes to
empty (for instance a whitespace-only probed title), and the literal
`converted_video` only when the base name also sanitizes to empty. -/
theorem title_fallback_chain (kind : String) (v : VideoInfo) (base : String) :
    select_output_title "pc" ⟨none, none, none, none⟩ base = "untitled_video" ∧
      select_output_title "mobile" ⟨none, none, none, none⟩ base = "untitled_video" ∧
      (sanitize_filename (if kind = "pc" then extract_title_pc v
          else extract_title_mobile v) = "" →
        (sanitize_filename base ≠ "" →
          select_output_title kind v base = sanitize_filename base) ∧
        (sanitize_filename base = "" →
          select_output_title kind v base = "converted_video")) := by
  refine ⟨rfl, rfl, ?_⟩
  intro h
  unfold select_output_title
  simp only [h]
  constructor
  · intro hb
    simp [hb]
  · intro hb
    simp [hb]

/-- Witness for the amended C4 theorem: a whitespace-only probed title
sanitizes to empty and the folder base name is used instead. -/
theorem title_fallback_chain_witness :
    select_output_title "pc" ⟨some " ", none, none, none⟩ "My Videos" =
      sanitize_filename "My Videos" :=
  ((title_fallback_chain "pc" ⟨some " ", none, none, none⟩ "My Videos").2.2
    (by decide)).1 (by decide)

/-! Helper lemmas about folder-structure detection. -/

theorem detect_pc_of_videoInfo (path : String) (children : List FSNode)
    (h : (children.any fun c => c.name = "videoInfo.json") = true) :
    detect_folder_structure path children =
      ("pc", some path, some (pjoin path "videoInfo.json")) := by
  unfold detect_folder_structure
  rw [if_pos h]

theorem detect_shape (path : String) (children : List FSNode) :
    detect_folder_structure path children =
        ("pc", some path, some (pjoin path "videoInfo.json")) ∨
      (∃ media json, detect_folder_structure path children =
        ("mobile", some media, some json)) ∨
      detect_folder_structure path children = ("unknown", none, none) := by
  unfold detect_folder_structure
  split
  · left; rfl
  · split
    · right; right; rfl
    · split
      · split
        · right; left; exact ⟨_, _, rfl⟩
        · right; right; rfl
      · right; right; rfl

/-- C6: folder-structure detection classifies a folder having a child
named `videoInfo.json` as the desktop (`pc`) layout with the folder
itself as fragment directory and that child as metadata path; the
folder holding `c_1/entry.json` and `c_1/77/a.m4s`, `c_1/77/b.m4s` as
the mobile layout with fragment directory `c_1/77` and the
`entry.json` as metadata path; and in every remaining case the result
is `unknown` with both paths `none`. -/
theorem folder_structure_detection (path : String) (children : List FSNode) :
    ((children.any fun c => c.name = "videoInfo.json") = true →
      detect_folder_structure path children =
        ("pc", some path, some (pjoin path "videoInfo.json"))) ∧
      detect_folder_structure "root"
          [.dir "c_1" [.file "entry.json", .dir "77" [.file "a.m4s", .file "b.m4s"]]] =
        ("mobile", some "root/c_1/77", some "root/c_1/entry.json") ∧
      ((detect_folder_structure path children).1 ≠ "pc" →
        (detect_folder_structure path children).1 ≠ "mobile" →
        detect_folder_structure path children = ("unknown", none, none)) := by
  refine ⟨detect_pc_of_videoInfo path children, by decide, ?_⟩
  intro hpc hmob
  rcases detect_shape path children with h | ⟨media, json, h⟩ | h
  · rw [h] at hpc
    exact absurd rfl hpc
  · rw [h] at hmob
    exact absurd rfl hmob
  · exact h

/-- Witness for the C6 theorem: a folder whose only child is
`videoInfo.json` is the desktop layout rooted at the folder itself,
and a folder with no recognizable child is `unknown` with null
paths. -/
theorem folder_structure_detection_witness :
    detect_folder_structure "f" [.file "videoInfo.json"] =
        ("pc", some "f", some "f/videoInfo.json") ∧
      detect_folder_structure "g" [.file "stray.txt"] = ("unknown", none, none) :=
  ⟨(folder_structure_detection "f" [.file "videoInfo.json"]).1 (by decide),
   (folder_structure_detection "g" [.file "stray.txt"]).2.2 (by decide) (by decide)⟩

/-- C9: the desktop-layout test only compares directory-entry names
with `videoInfo.json` — a subdirectory of that name also triggers it —
and it runs before the `c_`-prefixed mobile scan, so it wins even when
a complete mobile structure is present in the same folder. -/
theorem detect_videoInfo_by_name_only (path : String) (children : List FSNode) :
    ((children.any fun c => c.name = "videoInfo.json") = true →
      detect_folder_structure path children =
        ("pc", some path, some (pjoin path "videoInfo.json"))) ∧
      detect_folder_structure "r"
          [.dir "videoInfo.json" [],
           .dir "c_1" [.file "entry.json", .dir "77" [.file "a.m4s", .file "b.m4s"]]] =
        ("pc", some "r", some "r/videoInfo.json") :=
  ⟨detect_pc_of_videoInfo path children, by decide⟩

/-- Witness for the C9 theorem: a directory (not a regular file) named
`videoInfo.json` classifies the folder as the desktop layout. -/
theorem detect_videoInfo_by_name_only_witness :
    detect_folder_structure "w" [.dir "videoInfo.json" [.file "inner.txt"]] =
      ("pc", some "w", some "w/videoInfo.json") :=
  (detect_videoInfo_by_name_only "w" [.dir "videoInfo.json" [.file "inner.txt"]]).1
    (by decide)

/-- C5: track disambiguation keeps exactly the `.m4s`-named entries
(case-insensitively) whose size could be read, fails when fewer than
two remain, and otherwise returns the largest candidate as primary
(video) and the second-largest as secondary (audio), so the primary
size always dominates the secondary size; on sizes 10MB, 2MB and
500KB it picks the 10MB file as primary and the 2MB file as
secondary. -/
theorem track_disambiguation (files : List FileEntry) :
    ((m4sCandidates files).length < 2 → disambiguate files = none) ∧
      (∀ p s, disambiguate files = some (p, s) → s.2 ≤ p.2) ∧
      disambiguate [⟨"video.m4s", some 10485760⟩, ⟨"audio.M4S", some 2097152⟩,
          ⟨"extra.m4s", some 512000⟩] =
        some (("video.m4s", 10485760), ("audio.M4S", 2097152)) := by
  refine ⟨?_, ?_, by decide⟩
  · intro h
    unfold disambiguate
    rw [if_pos h]
  · intro p s h
    unfold disambiguate at h
    split at h
    · simp at h
    · have hsorted : (sortBySizeDesc (m4sCandidates files)).Sorted sizeGe :=
        List.sorted_insertionSort sizeGe _
      rcases hl : sortBySizeDesc (m4sCandidates files) with _ | ⟨a, _ | ⟨b, t⟩⟩ <;>
        rw [hl] at h
      · simp at h
      · simp at h
      · rw [hl] at hsorted
        have hab : sizeGe a b := List.rel_of_sorted_cons hsorted b (by simp)
        simp only [Option.some.injEq, Prod.mk.injEq] at h
        obtain ⟨h1, h2⟩ := h
        rw [← h1, ← h2]
        exact hab

/-- Witness for the C5 theorem: a single readable fragment is not
enough, and the concrete 10MB/2MB selection instantiates the size
invariant. -/
theorem track_disambiguation_witness :
    disambiguate [⟨"solo.m4s", some 7⟩] = none ∧ (2097152 : Nat) ≤ 10485760 :=
  ⟨(track_disambiguation [⟨"solo.m4s", some 7⟩]).1 (by decide),
   (track_disambiguation [⟨"video.m4s", some 10485760⟩, ⟨"audio.M4S", some 2097152⟩,
       ⟨"extra.m4s", some 512000⟩]).2.1 _ _
     (track_disambiguation [⟨"video.m4s", some 10485760⟩, ⟨"audio.M4S", some 2097152⟩,
       ⟨"extra.m4s", some 512000⟩]).2.2⟩

/-- C3: for a mobile-origin folder with at least two readable
fragments whose direct raw merge fails, exactly one repair-then-merge
attempt is made before the outcome is reported, and the temp files
created for it are exactly the temp files deleted, on every exit path
(merge success, external-tool failure, decode failure, or a raised
`mkstemp` error). -/
theorem mobile_fallback_and_temp_cleanup (env : MergeEnv)
    (hc : 2 ≤ (m4sCandidates env.files).length)
    (hd : env.directMergeOk = false) :
    repairAttempts (process_mobile_m4s_files env).2 = 1 ∧
      createdTemps (process_mobile_m4s_files env).2 =
        deletedTemps (process_mobile_m4s_files env).2 := by
  obtain ⟨files, dm, mv, ma, dv, da, md⟩ := env
  simp only at hd hc
  subst hd
  have hn : ¬ ((m4sCandidates files).length < 2) := by omega
  cases mv <;> cases ma <;> cases dv <;> cases da <;> cases md <;>
    simp [process_mobile_m4s_files, process_pc_m4s_files, hn,
      repairAttempts, isRepairEv, createdTemps, deletedTemps]

/-- Witness for the C3 theorem: two readable fragments, a failing
direct merge and an otherwise successful repair path — one fallback
attempt and matching temp-file creations and deletions. -/
theorem mobile_fallback_and_temp_cleanup_witness :
    repairAttempts (process_mobile_m4s_files
        ⟨[⟨"v.m4s", some 10⟩, ⟨"a.m4s", some 5⟩],
          false, true, true, true, true, true⟩).2 = 1 ∧
      createdTemps (process_mobile_m4s_files
          ⟨[⟨"v.m4s", some 10⟩, ⟨"a.m4s", some 5⟩],
            false, true, true, true, true, true⟩).2 =
        deletedTemps (process_mobile_m4s_files
            ⟨[⟨"v.m4s", some 10⟩, ⟨"a.m4s", some 5⟩],
              false, true, true, true, true, true⟩).2 :=
  mobile_fallback_and_temp_cleanup _ (by decide) (by decide)

end Bilibili
